import Mathlib

/-!
Verification development of the weather MCP demo: a stdio JSON-RPC client
(`src/mcp-client/client.py`) and a weather tool server
(`src/weather/weather.py`).  Python values travelling over the wire are
modelled by the inductive `Json` type below; fallible Python code
(functions that `raise`) is modelled with `Except`/`Option`.
-/

/-- Model of a Python / JSON value as it appears on the wire.  Numbers are
restricted to integers (`Int`), which covers every number the client or
server itself puts into a message (request ids, `days`, schema bounds);
upstream floating-point readings are only ever forwarded verbatim and are
modelled elsewhere by their decimal rendering. -/
inductive Json where
  | null
  | bool (b : Bool)
  | num (n : Int)
  | str (s : String)
  | arr (items : List Json)
  | obj (fields : List (String × Json))

/-- Association-list lookup, the model of reading `d[k]` / `d.get(k)` on a
Python dict (first binding wins, as dict keys are unique in practice). -/
def lookupKey : List (String × Json) → String → Option Json
  | [], _ => none
  | (k, v) :: kvs, key => if k = key then some v else lookupKey kvs key

/-- Model of `d.get(k)` for a JSON object; `none` on a non-object receiver
(where CPython would raise `AttributeError`, a path no claim exercises). -/
def Json.getKey : Json → String → Option Json
  | .obj kvs, key => lookupKey kvs key
  | _, _ => none

/-- Model of the Python membership test `k in d` for an object. -/
def Json.hasKey (j : Json) (key : String) : Bool :=
  (j.getKey key).isSome

/-- Model of `d.get(k, dflt)`. -/
def Json.getKeyD (j : Json) (key : String) (dflt : Json) : Json :=
  (j.getKey key).getD dflt

/-- Python truthiness of a JSON value (`if not location: ...`). -/
def Json.truthy : Json → Bool
  | .null => false
  | .bool b => b
  | .num n => n != 0
  | .str s => !s.isEmpty
  | .arr xs => !xs.isEmpty
  | .obj kvs => !kvs.isEmpty

/-- Model of Python `str()` as used in f-string interpolation.  Scalars are
rendered exactly as CPython renders them; container reprs are abstracted
(no claim interpolates a container). -/
def Json.pyStr : Json → String
  | .null => "None"
  | .bool true => "True"
  | .bool false => "False"
  | .num n => toString n
  | .str s => s
  | .arr _ => "[list]"
  | .obj _ => "\x7bdict\x7d"

/-! ## Transport framer: model of `json.dumps` on messages

`MCPClient._send_request` serialises a request with `json.dumps(request) + "\n"`.
The rendering below reproduces `json.dumps` output with its default
separators `", "` and `": "`.  Where CPython would emit a `\uXXXX` escape
(control characters other than the named escapes, and non-ASCII text under
`ensure_ascii`), the character is emitted verbatim; both spellings decode
to the same character, so the round-trip behaviour is unchanged. -/

/-- Escaping of one character inside a JSON string literal. -/
def escapeChar (c : Char) : List Char :=
  if c = '"' then ['\\', '"']
  else if c = '\\' then ['\\', '\\']
  else if c = '\n' then ['\\', 'n']
  else if c = '\t' then ['\\', 't']
  else if c = '\r' then ['\\', 'r']
  else if c = '\x08' then ['\\', 'b']
  else if c = '\x0c' then ['\\', 'f']
  else [c]

/-- Escaping of a character sequence. -/
def escapeChars : List Char → List Char
  | [] => []
  | c :: cs => escapeChar c ++ escapeChars cs

/-- Rendering of a JSON string literal, quotes included. -/
def renderStringChars (s : String) : List Char :=
  '"' :: escapeChars s.data ++ ['"']

/-- Digit to character. -/
def digitChar (d : Nat) : Char := Char.ofNat (48 + d)

/-- Decimal rendering of a natural number (most significant digit first). -/
def natChars (n : Nat) : List Char :=
  if n = 0 then ['0'] else ((Nat.digits 10 n).map digitChar).reverse

/-- Decimal rendering of an integer, as `json.dumps`/`str` renders it. -/
def intChars (n : Int) : List Char :=
  if n < 0 then '-' :: natChars n.natAbs else natChars n.natAbs

mutual

/-- Rendering of a JSON value, reproducing `json.dumps` with its default
separators. -/
def renderJson : Json → List Char
  | .null => "null".data
  | .bool true => "true".data
  | .bool false => "false".data
  | .num n => intChars n
  | .str s => renderStringChars s
  | .arr [] => ['[', ']']
  | .arr (x :: xs) => '[' :: (renderJson x ++ renderArrTail xs) ++ [']']
  | .obj [] => ['\x7b', '\x7d']
  | .obj ((k, v) :: kvs) =>
      '\x7b' :: (renderStringChars k ++ ':' :: ' ' :: renderJson v ++ renderObjTail kvs) ++ ['\x7d']

/-- Rendering of the remaining array elements, each preceded by `", "`. -/
def renderArrTail : List Json → List Char
  | [] => []
  | x :: xs => ',' :: ' ' :: renderJson x ++ renderArrTail xs

/-- Rendering of the remaining object members, each preceded by `", "`. -/
def renderObjTail : List (String × Json) → List Char
  | [] => []
  | (k, v) :: kvs => ',' :: ' ' :: renderStringChars k ++ ':' :: ' ' :: renderJson v ++ renderObjTail kvs

end

/-- Model of `json.dumps`. -/
def jsonDumps (j : Json) : String := ⟨renderJson j⟩

/-! ## Model of `json.loads` on framed lines

A recursive-descent parser over the character list, with a fuel argument
bounding recursion depth.  It accepts exactly the canonical spacing the
encoder produces, which is all the round-trip property needs. -/

/-- Numeric value of a digit character. -/
def digitVal (c : Char) : Nat := c.toNat - 48

/-- Parse a non-empty run of decimal digits (maximal munch). -/
def parseNatChars (input : List Char) : Option (Nat × List Char) :=
  let ds := input.takeWhile (fun c => c.isDigit)
  if ds.isEmpty then none
  else some (ds.foldl (fun a c => 10 * a + digitVal c) 0, input.dropWhile (fun c => c.isDigit))

/-- Parse an optionally negated decimal integer. -/
def parseIntChars : List Char → Option (Int × List Char)
  | [] => none
  | c :: cs =>
    if c = '-' then (parseNatChars cs).map (fun p => (-(p.1 : Int), p.2))
    else (parseNatChars (c :: cs)).map (fun p => ((p.1 : Int), p.2))

/-- Parse the body of a string literal after the opening quote, undoing the
escapes the encoder introduces. -/
def parseStrBody : List Char → Option (List Char × List Char)
  | [] => none
  | c :: cs =>
    if c = '"' then some ([], cs)
    else if c = '\\' then
      match cs with
      | [] => none
      | e :: rest =>
        let dec : Option Char :=
          if e = '"' then some '"'
          else if e = '\\' then some '\\'
          else if e = 'n' then some '\n'
          else if e = 't' then some '\t'
          else if e = 'r' then some '\r'
          else if e = 'b' then some '\x08'
          else if e = 'f' then some '\x0c'
          else none
        match dec with
        | some d => (parseStrBody rest).map (fun p => (d :: p.1, p.2))
        | none => none
    else (parseStrBody cs).map (fun p => (c :: p.1, p.2))

mutual

/-- Parse one JSON value. -/
def parseVal : Nat → List Char → Option (Json × List Char)
  | 0, _ => none
  | fuel+1, input =>
    match input with
    | [] => none
    | c :: cs =>
      if c = 'n' then
        match cs with
        | 'u' :: 'l' :: 'l' :: rest => some (.null, rest)
        | _ => none
      else if c = 't' then
        match cs with
        | 'r' :: 'u' :: 'e' :: rest => some (.bool true, rest)
        | _ => none
      else if c = 'f' then
        match cs with
        | 'a' :: 'l' :: 's' :: 'e' :: rest => some (.bool false, rest)
        | _ => none
      else if c = '"' then
        (parseStrBody cs).map (fun p => (Json.str ⟨p.1⟩, p.2))
      else if c = '[' then
        match cs with
        | [] => none
        | c2 :: cs2 =>
          if c2 = ']' then some (.arr [], cs2)
          else (parseArrItems fuel (c2 :: cs2)).map (fun p => (Json.arr p.1, p.2))
      else if c = '\x7b' then
        match cs with
        | [] => none
        | c2 :: cs2 =>
          if c2 = '\x7d' then some (.obj [], cs2)
          else (parseObjItems fuel (c2 :: cs2)).map (fun p => (Json.obj p.1, p.2))
      else
        (parseIntChars (c :: cs)).map (fun p => (Json.num p.1, p.2))

/-- Parse one or more array elements followed by the closing bracket. -/
def parseArrItems : Nat → List Char → Option (List Json × List Char)
  | 0, _ => none
  | fuel+1, input =>
    match parseVal fuel input with
    | none => none
    | some (j, rest) =>
      match rest with
      | ']' :: r2 => some ([j], r2)
      | ',' :: ' ' :: r2 => (parseArrItems fuel r2).map (fun p => (j :: p.1, p.2))
      | _ => none

/-- Parse one or more object members followed by the closing brace. -/
def parseObjItems : Nat → List Char → Option (List (String × Json) × List Char)
  | 0, _ => none
  | fuel+1, input =>
    match input with
    | '"' :: rest =>
      match parseStrBody rest with
      | none => none
      | some (k, r1) =>
        match r1 with
        | ':' :: ' ' :: r2 =>
          match parseVal fuel r2 with
          | none => none
          | some (v, r3) =>
            match r3 with
            | '\x7d' :: r4 => some ([(⟨k⟩, v)], r4)
            | ',' :: ' ' :: r4 => (parseObjItems fuel r4).map (fun p => ((⟨k⟩, v) :: p.1, p.2))
            | _ => none
        | _ => none
    | _ => none

end

/-- Model of `json.loads`, requiring the whole input to be consumed. -/
def jsonLoads (s : String) : Option Json :=
  match parseVal (s.data.length + 1) s.data with
  | some (j, []) => some j
  | _ => none

/-- Characters Python's `str.strip()` removes. -/
def isPySpace (c : Char) : Bool :=
  c = ' ' || c = '\n' || c = '\t' || c = '\r' || c = '\x0b' || c = '\x0c'

/-- Model of Python's `str.strip()`. -/
def pyStrip (s : String) : String :=
  ⟨((s.data.dropWhile isPySpace).reverse.dropWhile isPySpace).reverse⟩

mutual

/-- Node-count measure of a JSON value, used to discharge parser fuel. -/
def jsize : Json → Nat
  | .null => 1
  | .bool _ => 1
  | .num _ => 1
  | .str _ => 1
  | .arr xs => 1 + jsizeArr xs
  | .obj kvs => 1 + jsizeObj kvs

/-- Measure of an array tail. -/
def jsizeArr : List Json → Nat
  | [] => 0
  | x :: xs => 1 + jsize x + jsizeArr xs

/-- Measure of an object tail. -/
def jsizeObj : List (String × Json) → Nat
  | [] => 0
  | (_, v) :: kvs => 1 + jsize v + jsizeObj kvs

end

/-! ## Request messages and line framing (`MCPClient._send_request`, send side)

The client builds each request as a dict `{"jsonrpc": "2.0", "id": ...,
"method": ..., "params": ...}` (the `params` key present only when the
method takes parameters), serialises it with `json.dumps(request) + "\n"`,
and the peer recovers it with `json.loads(line.strip())`. -/

/-- Logical content of a client Request: the protocol tag is the constant
`"2.0"`, so only id, method and params vary. -/
structure Request where
  id : Int
  method : String
  params : Option Json

/-- Dict shape of a Request, with the key order the source uses. -/
def Request.toJson (r : Request) : Json :=
  .obj ([("jsonrpc", .str "2.0"), ("id", .num r.id), ("method", .str r.method)] ++
    (match r.params with
     | none => []
     | some p => [("params", p)]))

/-- Recovery of a Request from its decoded dict. -/
def Request.fromJson (j : Json) : Option Request :=
  match j with
  | .obj kvs =>
    match lookupKey kvs "id", lookupKey kvs "method" with
    | some (.num id), some (.str m) => some ⟨id, m, lookupKey kvs "params"⟩
    | _, _ => none
  | _ => none

/-- Model of the send side of `_send_request`: one newline-terminated JSON
line per request. -/
def encodeRequestLine (r : Request) : String :=
  jsonDumps r.toJson ++ "\n"

/-- Model of the receive side: strip the line, decode it, read the fields. -/
def decodeRequestLine (s : String) : Option Request :=
  (jsonLoads (pyStrip s)).bind Request.fromJson

/-! ## RPC client state (`MCPClient`) -/

/-- Mutable state of one `MCPClient` instance: the private request-id
counter (`self.request_id`), set to `0` in `__init__`. -/
structure MCPClient where
  request_id : Int

/-- State of a freshly constructed client (`MCPClient.__init__`). -/
def MCPClient.new : MCPClient := { request_id := 0 }

/-- Model of `_get_request_id`: pre-increment the counter, return it. -/
def MCPClient.get_request_id (c : MCPClient) : Int × MCPClient :=
  (c.request_id + 1, { request_id := c.request_id + 1 })

/-- The id handed out by the n-th call to `_get_request_id` (counting from
zero) on a client evolving from state `c`. -/
def MCPClient.idAfter : MCPClient → Nat → Int
  | c, 0 => c.get_request_id.1
  | c, n+1 => c.get_request_id.2.idAfter n

/-- Params dict of the `initialize` request. -/
def initializeParams : Json :=
  .obj [("protocolVersion", .str "2024-11-05"),
        ("capabilities", .obj [("tools", .obj [])]),
        ("clientInfo", .obj [("name", .str "weather-client"), ("version", .str "1.0.0")])]

/-- Request built by `initialize()`, paired with the successor state. -/
def MCPClient.initializeRequest (c : MCPClient) : Json × MCPClient :=
  let p := c.get_request_id
  (.obj [("jsonrpc", .str "2.0"), ("id", .num p.1), ("method", .str "initialize"),
         ("params", initializeParams)], p.2)

/-- Request built by `list_tools()`, paired with the successor state. -/
def MCPClient.listToolsRequest (c : MCPClient) : Json × MCPClient :=
  let p := c.get_request_id
  (.obj [("jsonrpc", .str "2.0"), ("id", .num p.1), ("method", .str "tools/list")], p.2)

/-- Request built by `call_tool(name, arguments)`, paired with the
successor state. -/
def MCPClient.callToolRequest (c : MCPClient) (name : String) (arguments : Json) : Json × MCPClient :=
  let p := c.get_request_id
  (.obj [("jsonrpc", .str "2.0"), ("id", .num p.1), ("method", .str "tools/call"),
         ("params", .obj [("name", .str name), ("arguments", arguments)])], p.2)

/-! ## Receive side of `_send_request` and the client operations -/

/-- Failures `_send_request` can raise, as a structured value instead of
`RuntimeError`. -/
inductive SendFailure where
  | connectionClosed
  | serverError (err : Json)
  | invalidResponse (msg : String)

/-- Message text of the corresponding `RuntimeError`. -/
def SendFailure.text : SendFailure → String
  | .connectionClosed => "Server closed connection"
  | .serverError e => "Server error: " ++ e.pyStr
  | .invalidResponse m => "Invalid server response: " ++ m

/-- What `readline()` on the server's stdout produced: a zero-byte read
(closed stream), or a raw line together with the outcome of `json.loads`
on it.  The decoder outcome is an input here because `json.loads` is
library code; on failure it carries the `JSONDecodeError` message, which
in CPython reports the error kind and position but never embeds the
document text. -/
inductive RecvOutcome where
  | closed
  | line (raw : String) (decoded : Except String Json)

/-- Model of the receive half of `_send_request`: the result (or raised
failure), paired with the lines written to the error log. -/
def sendRequestRecv : RecvOutcome → Except SendFailure Json × List String
  | .closed => (.error .connectionClosed, [])
  | .line raw decoded =>
    match decoded with
    | .error e => (.error (.invalidResponse e), ["Invalid JSON response: " ++ raw])
    | .ok resp =>
      if resp.hasKey "error" then
        (.error (.serverError ((resp.getKey "error").getD .null)), [])
      else (.ok resp, [])

/-- Model of the tail of `call_tool`: `return response.get("result")`. -/
def callToolHandle (r : RecvOutcome) : Except SendFailure (Option Json) :=
  match (sendRequestRecv r).1 with
  | .error f => .error f
  | .ok resp => .ok (resp.getKey "result")

/-- Model of the tail of `list_tools`:
`return response.get("result", {}).get("tools", [])`. -/
def listToolsHandle (r : RecvOutcome) : Except SendFailure Json :=
  match (sendRequestRecv r).1 with
  | .error f => .error f
  | .ok resp => .ok ((resp.getKeyD "result" (.obj [])).getKeyD "tools" (.arr []))

/-! ## Weather Lookup Service (`WeatherService` in `src/weather/weather.py`)

Every network round-trip is split into a pure response-processing function
(translated from the code that inspects the `aiohttp` response) and a
wrapper that feeds it the upstream answer supplied by an `Env` and records
the performed call.  Upstream floating-point readings (coordinates,
temperatures, ...) are never computed with — only forwarded and
interpolated into text — so they are modelled by their decimal
rendering as `String`s. -/

/-- One geocoding candidate as returned by the upstream API.  `name` and
`country` are `Option`s because the code reads them with
`result.get("name", location)` / `result.get("country", "")`. -/
structure GeoResult where
  latitude : String
  longitude : String
  name : Option String
  country : Option String

/-- Upstream geocoding answer: HTTP status plus the `results` list
(`data.get("results")`, absent or empty modelled alike as `[]`). -/
structure GeoResponse where
  status : Nat
  results : List GeoResult

/-- Resolved coordinates, the dict `get_coordinates` returns. -/
structure Coordinates where
  latitude : String
  longitude : String
  name : String
  country : String

/-- Response handling of `WeatherService.get_coordinates`: on HTTP 200 with
at least one candidate, build the coordinates from the first candidate;
otherwise raise `ValueError(f"Location '{location}' not found")`. -/
def WeatherService.get_coordinates_process (location : String) (resp : GeoResponse) :
    Except String Coordinates :=
  if resp.status = 200 then
    match resp.results with
    | r :: _ =>
      .ok { latitude := r.latitude, longitude := r.longitude,
            name := r.name.getD location, country := r.country.getD "" }
    | [] => .error ("Location \x27" ++ location ++ "\x27 not found")
  else .error ("Location \x27" ++ location ++ "\x27 not found")

/-- Fields of the `current` object the formatter reads, by their decimal /
text rendering; `is_day` is the upstream 0/1 flag. -/
structure CurrentData where
  time : String
  temperature_2m : String
  apparent_temperature : String
  relative_humidity_2m : String
  precipitation : String
  wind_speed_10m : String
  wind_direction_10m : String
  pressure_msl : String
  cloud_cover : String
  is_day : Nat

/-- Fields of the paired `current_units` object. -/
structure CurrentUnits where
  temperature_2m : String
  apparent_temperature : String
  relative_humidity_2m : String
  precipitation : String
  wind_speed_10m : String
  wind_direction_10m : String
  pressure_msl : String
  cloud_cover : String

/-- Payload of a successful current-weather fetch (the fields the handler
reads; the payload is assumed shape-correct, as the upstream contract
guarantees). -/
structure CurrentPayload where
  current : CurrentData
  current_units : CurrentUnits

/-- Upstream current-weather answer: HTTP status plus payload. -/
structure CurrentResponse where
  status : Nat
  payload : CurrentPayload

/-- Response handling of `WeatherService.get_current_weather`: return the
payload on HTTP 200, otherwise raise
`ValueError(f"Failed to fetch weather data: {response.status}")`. -/
def WeatherService.get_current_weather_process (resp : CurrentResponse) :
    Except String CurrentPayload :=
  if resp.status = 200 then .ok resp.payload
  else .error ("Failed to fetch weather data: " ++ toString resp.status)

/-- Query parameters `WeatherService.get_forecast` sends upstream.  The
source computes `"forecast_days": min(days, 16)`. -/
structure ForecastParams where
  latitude : String
  longitude : String
  daily : String
  timezone : String
  forecast_days : Int

/-- Construction of the forecast query parameters, translated from the
`params` dict in `get_forecast`. -/
def WeatherService.get_forecast_params (latitude longitude : String) (days : Int) :
    ForecastParams :=
  { latitude := latitude, longitude := longitude,
    daily := "weather_code,temperature_2m_max,temperature_2m_min,apparent_temperature_max,apparent_temperature_min,sunrise,sunset,precipitation_sum,rain_sum,showers_sum,snowfall_sum,precipitation_hours,wind_speed_10m_max,wind_gusts_10m_max,wind_direction_10m_dominant",
    timezone := "auto",
    forecast_days := min days 16 }

/-- One day of the forecast: the upstream parallel arrays `daily[...]` are
modelled row-wise (the handler indexes them in lockstep). -/
structure DailyRow where
  time : String
  temperature_2m_max : String
  temperature_2m_min : String
  precipitation_sum : String
  wind_speed_10m_max : String

/-- Fields of the paired `daily_units` object the formatter reads. -/
structure DailyUnits where
  temperature_2m_max : String
  temperature_2m_min : String
  precipitation_sum : String
  wind_speed_10m_max : String

/-- Payload of a successful forecast fetch. -/
structure ForecastPayload where
  daily : List DailyRow
  daily_units : DailyUnits

/-- Upstream forecast answer: HTTP status plus payload. -/
structure ForecastResponse where
  status : Nat
  payload : ForecastPayload

/-- Response handling of `WeatherService.get_forecast`: return the payload
on HTTP 200, otherwise raise
`ValueError(f"Failed to fetch forecast data: {response.status}")`. -/
def WeatherService.get_forecast_process (resp : ForecastResponse) :
    Except String ForecastPayload :=
  if resp.status = 200 then .ok resp.payload
  else .error ("Failed to fetch forecast data: " ++ toString resp.status)

/-- A network call the service performs, recorded for the claims that some
path performs no call; the forecast call carries the `forecast_days`
value actually sent. -/
inductive NetCall where
  | geocode (location : String)
  | currentWeather (latitude longitude : String)
  | forecast (latitude longitude : String) (forecast_days : Int)

/-- Upstream world: what each endpoint answers for given query
parameters. -/
structure Env where
  geo : String → GeoResponse
  current : String → String → CurrentResponse
  forecastUp : String → String → Int → ForecastResponse

/-- `WeatherService.get_coordinates`: one geocoding round-trip. -/
def WeatherService.get_coordinates (env : Env) (location : String) :
    Except String Coordinates × List NetCall :=
  (WeatherService.get_coordinates_process location (env.geo location), [.geocode location])

/-- `WeatherService.get_current_weather`: one forecast-endpoint round-trip
with `current=` fields. -/
def WeatherService.get_current_weather (env : Env) (latitude longitude : String) :
    Except String CurrentPayload × List NetCall :=
  (WeatherService.get_current_weather_process (env.current latitude longitude),
   [.currentWeather latitude longitude])

/-- `WeatherService.get_forecast`: one forecast-endpoint round-trip with
`daily=` fields and the clamped `forecast_days`. -/
def WeatherService.get_forecast (env : Env) (latitude longitude : String) (days : Int) :
    Except String ForecastPayload × List NetCall :=
  let p := WeatherService.get_forecast_params latitude longitude days
  (WeatherService.get_forecast_process (env.forecastUp latitude longitude p.forecast_days),
   [.forecast latitude longitude p.forecast_days])

/-! ## Tool dispatcher (`handle_call_tool` / `handle_list_tools`)

Content items model `mcp.types` content: the handler only ever constructs
`TextContent`, but the wire type also admits non-text items, so the shape
claims are not vacuous.  The decorative characters in the format strings
below reproduce the source file's bytes exactly (the file contains
mojibake of the original emoji, e.g. U+F8FF U+00FC U+00EC U+00D6 where a
calendar emoji was intended, and U+00AC U+221E for the degree sign). -/

/-- A content item of a tool-call result. -/
inductive Content where
  | text (s : String)
  | image (data : String) (mimeType : String)

/-- Whether a content item is a `TextContent`. -/
def Content.isText : Content → Bool
  | .text _ => true
  | .image _ _ => false

/-- Text block built on the `get_current_weather` success path. -/
def formatCurrentText (coords : Coordinates) (p : CurrentPayload) : String :=
  "Current weather for " ++ coords.name ++ ", " ++ coords.country ++ ":\n" ++
  "Temperature: " ++ p.current.temperature_2m ++ p.current_units.temperature_2m ++
    " (feels like " ++ p.current.apparent_temperature ++ p.current_units.apparent_temperature ++ ")\n" ++
  "Humidity: " ++ p.current.relative_humidity_2m ++ p.current_units.relative_humidity_2m ++ "\n" ++
  "Wind: " ++ p.current.wind_speed_10m ++ p.current_units.wind_speed_10m ++ " at " ++
    p.current.wind_direction_10m ++ p.current_units.wind_direction_10m ++ "¬∞\n" ++
  "Pressure: " ++ p.current.pressure_msl ++ p.current_units.pressure_msl ++ "\n" ++
  "Cloud Cover: " ++ p.current.cloud_cover ++ p.current_units.cloud_cover ++ "\n" ++
  "Precipitation: " ++ p.current.precipitation ++ p.current_units.precipitation ++ "\n" ++
  "Time of Day: " ++ (if p.current.is_day ≠ 0 then "Day" else "Night") ++ "\n\n" ++
  "Data from Open-Meteo API"

/-- One day's lines of the forecast text block. -/
def formatForecastRow (u : DailyUnits) (r : DailyRow) : String :=
  "üìÖ " ++ r.time ++ ":\n" ++
  "  üå°Ô∏è  High: " ++ r.temperature_2m_max ++ u.temperature_2m_max ++
    ", Low: " ++ r.temperature_2m_min ++ u.temperature_2m_min ++ "\n" ++
  "  üåßÔ∏è  Precipitation: " ++ r.precipitation_sum ++ u.precipitation_sum ++ "\n" ++
  "  üí® Max Wind: " ++ r.wind_speed_10m_max ++ u.wind_speed_10m_max ++ "\n\n"

/-- Text block built on the `get_weather_forecast` success path;
`daysShown` is the interpolation of the raw `days` argument. -/
def formatForecastText (coords : Coordinates) (daysShown : String) (p : ForecastPayload) : String :=
  "Weather forecast for " ++ coords.name ++ ", " ++ coords.country ++ " (" ++ daysShown ++ " days):\n\n" ++
  String.join (p.daily.map (formatForecastRow p.daily_units)) ++
  "Data from Open-Meteo API"

/-- Text block built on the `search_location` success path. -/
def formatSearchText (coords : Coordinates) : String :=
  "Location: " ++ coords.name ++ ", " ++ coords.country ++ "\n" ++
  "Coordinates: " ++ coords.latitude ++ ", " ++ coords.longitude

/-- Truthiness of `arguments.get("location")` (missing key gives Python
`None`, which is falsy). -/
def locTruthy : Option Json → Bool
  | none => false
  | some j => j.truthy

/-- Conversion of the raw `days` argument to the integer handed to
`min(days, 16)`.  A Python `bool` is an `int` subtype; any other type
makes `min` raise `TypeError` inside the handler's `try` block (the
exact CPython message is irrelevant downstream and abstracted here). -/
def jsonDaysInt : Json → Except String Int
  | .num n => .ok n
  | .bool b => .ok (if b then 1 else 0)
  | _ => .error "TypeError in min()"

/-- The tool-call dispatcher `handle_call_tool(name, arguments)`, given the
upstream world `env`; returns the content items and the network calls
performed, in order. -/
def handle_call_tool (name : String) (arguments : List (String × Json)) (env : Env) :
    List Content × List NetCall :=
  if name = "get_current_weather" then
    let location := lookupKey arguments "location"
    if !locTruthy location then ([.text "Error: Location is required"], [])
    else
      let locS := (location.getD .null).pyStr
      match WeatherService.get_coordinates env locS with
      | (.error e, calls1) => ([.text ("Error getting weather: " ++ e)], calls1)
      | (.ok coords, calls1) =>
        match WeatherService.get_current_weather env coords.latitude coords.longitude with
        | (.error e, calls2) => ([.text ("Error getting weather: " ++ e)], calls1 ++ calls2)
        | (.ok payload, calls2) => ([.text (formatCurrentText coords payload)], calls1 ++ calls2)
  else if name = "get_weather_forecast" then
    let location := lookupKey arguments "location"
    let days := (lookupKey arguments "days").getD (.num 7)
    if !locTruthy location then ([.text "Error: Location is required"], [])
    else
      let locS := (location.getD .null).pyStr
      match WeatherService.get_coordinates env locS with
      | (.error e, calls1) => ([.text ("Error getting forecast: " ++ e)], calls1)
      | (.ok coords, calls1) =>
        match jsonDaysInt days with
        | .error e => ([.text ("Error getting forecast: " ++ e)], calls1)
        | .ok d =>
          match WeatherService.get_forecast env coords.latitude coords.longitude d with
          | (.error e, calls2) => ([.text ("Error getting forecast: " ++ e)], calls1 ++ calls2)
          | (.ok payload, calls2) =>
            ([.text (formatForecastText coords days.pyStr payload)], calls1 ++ calls2)
  else if name = "search_location" then
    let location := lookupKey arguments "location"
    if !locTruthy location then ([.text "Error: Location is required"], [])
    else
      let locS := (location.getD .null).pyStr
      match WeatherService.get_coordinates env locS with
      | (.error e, calls1) => ([.text ("Error searching location: " ++ e)], calls1)
      | (.ok coords, calls1) => ([.text (formatSearchText coords)], calls1)
  else
    ([.text ("Unknown tool: " ++ name)], [])

/-- A Tool Descriptor as advertised by `handle_list_tools`. -/
structure Tool where
  name : String
  description : String
  inputSchema : Json

/-- Input schema shared shape of the `location` property. -/
def locationProperty (desc : String) : Json :=
  .obj [("type", .str "string"), ("description", .str desc)]

/-- The server's `handle_list_tools()`: a constant list of three Tool
Descriptors, translated field by field from the source. -/
def handle_list_tools : List Tool :=
  [{ name := "get_current_weather",
     description := "Get current weather conditions for a location",
     inputSchema := .obj
       [("type", .str "object"),
        ("properties", .obj
          [("location", locationProperty "City name, e.g., \x27Bangkok, Thailand\x27 or \x27New York\x27")]),
        ("required", .arr [.str "location"])] },
   { name := "get_weather_forecast",
     description := "Get weather forecast for a location",
     inputSchema := .obj
       [("type", .str "object"),
        ("properties", .obj
          [("location", locationProperty "City name, e.g., \x27Bangkok, Thailand\x27 or \x27New York\x27"),
           ("days", .obj
             [("type", .str "integer"),
              ("description", .str "Number of forecast days (1-16)"),
              ("default", .num 7),
              ("minimum", .num 1),
              ("maximum", .num 16)])]),
        ("required", .arr [.str "location"])] },
   { name := "search_location",
     description := "Search for location coordinates",
     inputSchema := .obj
       [("type", .str "object"),
        ("properties", .obj
          [("location", locationProperty "Location name to search for")]),
        ("required", .arr [.str "location"])] }]

/-- A concrete upstream world used by witnesses: geocoding succeeds with no
candidates, the weather endpoints answer HTTP 404. -/
def envEx : Env :=
  { geo := fun _ => { status := 200, results := [] },
    current := fun _ _ =>
      { status := 404,
        payload :=
          { current := { time := "", temperature_2m := "", apparent_temperature := "",
                         relative_humidity_2m := "", precipitation := "", wind_speed_10m := "",
                         wind_direction_10m := "", pressure_msl := "", cloud_cover := "",
                         is_day := 0 },
            current_units := { temperature_2m := "", apparent_temperature := "",
                               relative_humidity_2m := "", precipitation := "",
                               wind_speed_10m := "", wind_direction_10m := "",
                               pressure_msl := "", cloud_cover := "" } } },
    forecastUp := fun _ _ _ =>
      { status := 404,
        payload :=
          { daily := [],
            daily_units := { temperature_2m_max := "", temperature_2m_min := "",
                             precipitation_sum := "", wind_speed_10m_max := "" } } } }

/-! ## Theorems -/

theorem locTruthy_empty (o : Option Json)
    (h : o = none ∨ o = some (.str "")) : locTruthy o = false := by
  rcases h with h | h <;> subst h <;> rfl

/-- Claim C1: for each of the three tool handlers, a missing or empty
`location` argument makes the handler return the single text item
"Error: Location is required", with no network call performed. -/
theorem handler_requires_location (name : String) (arguments : List (String × Json)) (env : Env)
    (hname : name = "get_current_weather" ∨ name = "get_weather_forecast" ∨
      name = "search_location")
    (hloc : lookupKey arguments "location" = none ∨
      lookupKey arguments "location" = some (.str "")) :
    handle_call_tool name arguments env = ([.text "Error: Location is required"], []) := by
  have hl := locTruthy_empty _ hloc
  rcases hname with h | h | h <;> subst h <;> simp [handle_call_tool, hl]

/-- Witness for C1 at the instance the claim names:
`callTool("search_location", ...)` with empty arguments. -/
theorem handler_requires_location_witness :
    handle_call_tool "search_location" [] envEx = ([.text "Error: Location is required"], []) :=
  handler_requires_location "search_location" [] envEx (Or.inr (Or.inr rfl)) (Or.inl rfl)

/-- Counterexample to claim C2 as stated: `get_forecast` with `days = 0`
sends `forecast_days = 0`, not `1` — the value is not clamped into
`[1, 16]` from below. -/
theorem forecast_days_no_lower_clamp :
    (WeatherService.get_forecast_params "0" "0" 0).forecast_days = 0 ∧
    (WeatherService.get_forecast_params "0" "0" 0).forecast_days ≠ 1 ∧
    ¬ (1 ≤ (WeatherService.get_forecast_params "0" "0" 0).forecast_days ∧
       (WeatherService.get_forecast_params "0" "0" 0).forecast_days ≤ 16) := by
  refine ⟨rfl, by decide, by decide⟩

/-- Claim C2 (amended): `get_forecast` clamps `days` only from above, to at
most 16, before sending it upstream: any `days ≤ 16` (including values
below 1) is sent unchanged, any `days ≥ 16` is sent as 16; the recorded
upstream call carries exactly that clamped value. -/
theorem forecast_days_upper_clamp_only (lat lon : String) (days : Int) (env : Env) :
    ((days ≤ 16 → (WeatherService.get_forecast_params lat lon days).forecast_days = days) ∧
     (16 ≤ days → (WeatherService.get_forecast_params lat lon days).forecast_days = 16)) ∧
    (WeatherService.get_forecast env lat lon days).2 =
      [NetCall.forecast lat lon (WeatherService.get_forecast_params lat lon days).forecast_days] := by
  refine ⟨⟨fun h => ?_, fun h => ?_⟩, rfl⟩ <;>
    simp only [WeatherService.get_forecast_params] <;> omega

/-- Witness for C2 (amended) at the boundary inputs the spec mentions:
`days = 30` is sent as 16, `days = 0` is sent as 0. -/
theorem forecast_days_upper_clamp_only_witness :
    (WeatherService.get_forecast_params "0" "0" 30).forecast_days = 16 ∧
    (WeatherService.get_forecast_params "0" "0" 0).forecast_days = 0 :=
  ⟨(forecast_days_upper_clamp_only "0" "0" 30 envEx).1.2 (by decide),
   (forecast_days_upper_clamp_only "0" "0" 0 envEx).1.1 (by decide)⟩

set_option maxRecDepth 8192 in
/-- Counterexample to claim C3 as stated: on a malformed line, the raised
failure carries the decoder's error description, and the raw offending
line (here "oops", with CPython's actual decoder message for it) does not
occur in the failure text — the raw line goes to the error log instead. -/
theorem invalid_json_failure_lacks_raw_line :
    (sendRequestRecv (.line "oops" (.error "Expecting value: line 1 column 1 (char 0)"))).1 =
      .error (.invalidResponse "Expecting value: line 1 column 1 (char 0)") ∧
    ¬ ("oops".data <:+:
       (SendFailure.invalidResponse "Expecting value: line 1 column 1 (char 0)").text.data) :=
  ⟨rfl, by decide⟩

/-- Claim C3 (amended): a Response carrying an error object fails with the
server-supplied error value; a zero-byte read fails as connection-closed;
a line that is not well-formed JSON fails with a protocol failure carrying
the decoder's error description, while the raw offending line is written
to the error log for diagnosis. -/
theorem send_request_failure_modes :
    ((sendRequestRecv .closed).1 = .error .connectionClosed ∧
     SendFailure.connectionClosed.text = "Server closed connection") ∧
    (∀ raw e, (sendRequestRecv (.line raw (.error e))).1 = .error (.invalidResponse e) ∧
       (SendFailure.invalidResponse e).text = "Invalid server response: " ++ e ∧
       ("Invalid JSON response: " ++ raw) ∈ (sendRequestRecv (.line raw (.error e))).2) ∧
    (∀ raw resp, resp.hasKey "error" = true →
       (sendRequestRecv (.line raw (.ok resp))).1 =
         .error (.serverError ((resp.getKey "error").getD .null))) := by
  refine ⟨⟨rfl, rfl⟩, fun raw e => ⟨rfl, rfl, ?_⟩, fun raw resp h => ?_⟩
  · simp [sendRequestRecv]
  · simp [sendRequestRecv, h]

/-- Witness for C3 (amended): a Response with an error object converts to
the corresponding failure. -/
theorem send_request_failure_modes_witness :
    (sendRequestRecv (.line "x" (.ok (.obj [("error", .str "boom")])))).1 =
      .error (.serverError (.str "boom")) :=
  send_request_failure_modes.2.2 "x" (.obj [("error", .str "boom")]) rfl

theorem idAfter_shift (n : Nat) :
    ∀ c : MCPClient, c.idAfter n = c.request_id + n + 1 := by
  induction n with
  | zero => intro c; simp [MCPClient.idAfter, MCPClient.get_request_id]
  | succ n ih =>
    intro c
    show (MCPClient.get_request_id c).2.idAfter n = _
    rw [ih]
    simp [MCPClient.get_request_id]
    omega

/-- Claim C4: the request-id counter starts at 0 and is pre-incremented, so
the n-th id issued by a fresh client is n + 1 (ids are 1, 2, 3, ...),
ids are never reused, and the ids attached to an
initialize / tools list / tools call sequence are 1, 2, 3. -/
theorem request_ids_monotone_from_one :
    (∀ n : Nat, MCPClient.new.idAfter n = n + 1) ∧
    (∀ m n : Nat, m < n → MCPClient.new.idAfter m ≠ MCPClient.new.idAfter n) ∧
    (MCPClient.new.initializeRequest.1.getKey "id" = some (.num 1) ∧
     MCPClient.new.initializeRequest.2.listToolsRequest.1.getKey "id" = some (.num 2) ∧
     (MCPClient.new.initializeRequest.2.listToolsRequest.2.callToolRequest
        "get_current_weather" (.obj [])).1.getKey "id" = some (.num 3)) := by
  have hb : ∀ n : Nat, MCPClient.new.idAfter n = n + 1 := by
    intro n; rw [idAfter_shift]; simp [MCPClient.new]
  refine ⟨hb, fun m n hmn => ?_, rfl, rfl, rfl⟩
  rw [hb, hb]
  intro h
  omega

/-- Witness for C4: two distinct positions receive distinct ids. -/
theorem request_ids_monotone_from_one_witness :
    MCPClient.new.idAfter 0 ≠ MCPClient.new.idAfter 1 :=
  request_ids_monotone_from_one.2.1 0 1 (by decide)

/-- Claim C5: `get_coordinates` on a success status with at least one
candidate returns the first candidate's latitude and longitude, the
display name falling back to the queried text, and the country falling
back to the empty string; with no candidates or a non-success status it
raises a not-found error whose message names the queried input. -/
theorem get_coordinates_first_candidate (location : String) (resp : GeoResponse) :
    (∀ r rs, resp.status = 200 → resp.results = r :: rs →
       WeatherService.get_coordinates_process location resp =
         .ok { latitude := r.latitude, longitude := r.longitude,
               name := r.name.getD location, country := r.country.getD "" }) ∧
    (resp.status = 200 → resp.results = [] →
       WeatherService.get_coordinates_process location resp =
         .error ("Location \x27" ++ location ++ "\x27 not found")) ∧
    (resp.status ≠ 200 →
       WeatherService.get_coordinates_process location resp =
         .error ("Location \x27" ++ location ++ "\x27 not found")) := by
  refine ⟨fun r rs hs hr => ?_, fun hs hr => ?_, fun hs => ?_⟩ <;>
    simp [WeatherService.get_coordinates_process, hs] <;> simp [hr]

/-- Witness for C5: a concrete hit (name and country present) and a
concrete zero-candidate miss. -/
theorem get_coordinates_first_candidate_witness :
    WeatherService.get_coordinates_process "Bangkok"
        { status := 200,
          results := [{ latitude := "13.7563", longitude := "100.5018",
                        name := some "Bangkok", country := some "Thailand" }] } =
      .ok { latitude := "13.7563", longitude := "100.5018",
            name := "Bangkok", country := "Thailand" } ∧
    WeatherService.get_coordinates_process "Nowhere" { status := 200, results := [] } =
      .error "Location \x27Nowhere\x27 not found" :=
  ⟨(get_coordinates_first_candidate "Bangkok" _).1 _ _ rfl rfl,
   (get_coordinates_first_candidate "Nowhere" _).2.1 rfl rfl⟩

/-- Claim C6: any tool name other than the three known ones yields the
single text item "Unknown tool: " followed by the name, for any argument
mapping (and performs no network call). -/
theorem unknown_tool_text (name : String) (arguments : List (String × Json)) (env : Env)
    (h1 : name ≠ "get_current_weather") (h2 : name ≠ "get_weather_forecast")
    (h3 : name ≠ "search_location") :
    handle_call_tool name arguments env = ([.text ("Unknown tool: " ++ name)], []) := by
  simp [handle_call_tool, h1, h2, h3]

/-- Witness for C6 at the instance the claim names: `bogus_tool`. -/
theorem unknown_tool_text_witness :
    handle_call_tool "bogus_tool" [] envEx = ([.text "Unknown tool: bogus_tool"], []) :=
  unknown_tool_text "bogus_tool" [] envEx (by decide) (by decide) (by decide)

/-- Claim C7: `handle_list_tools` always returns exactly 3 descriptors,
named `get_current_weather`, `get_weather_forecast`, `search_location`;
each schema requires `location`, and only the forecast tool has a `days`
property, with default 7, minimum 1 and maximum 16. -/
theorem list_tools_fixed_descriptors :
    handle_list_tools.length = 3 ∧
    handle_list_tools.map Tool.name =
      ["get_current_weather", "get_weather_forecast", "search_location"] ∧
    handle_list_tools.map (fun t => t.inputSchema.getKey "required") =
      [some (.arr [.str "location"]), some (.arr [.str "location"]),
       some (.arr [.str "location"])] ∧
    handle_list_tools.map
        (fun t => (((t.inputSchema.getKey "properties").getD .null).getKey "days").map
          (fun d => (d.getKey "default", d.getKey "minimum", d.getKey "maximum"))) =
      [none, some (some (.num 7), some (.num 1), some (.num 16)), none] :=
  ⟨rfl, rfl, rfl, rfl⟩

/-- Claim C10: a Response with neither an error object nor a result field
makes `call_tool` succeed with an empty payload, and `list_tools` return
the empty list; `list_tools` also returns the empty list when the result
payload lacks a `tools` field. -/
theorem empty_result_payload_defaults (raw : String) (kvs : List (String × Json))
    (herr : lookupKey kvs "error" = none) :
    (lookupKey kvs "result" = none →
       callToolHandle (.line raw (.ok (.obj kvs))) = .ok none ∧
       listToolsHandle (.line raw (.ok (.obj kvs))) = .ok (.arr [])) ∧
    (∀ kvs2, lookupKey kvs "result" = some (.obj kvs2) → lookupKey kvs2 "tools" = none →
       listToolsHandle (.line raw (.ok (.obj kvs))) = .ok (.arr [])) := by
  have hk : (Json.obj kvs).hasKey "error" = false := by
    simp [Json.hasKey, Json.getKey, herr]
  constructor
  · intro hres
    constructor <;>
      simp [callToolHandle, listToolsHandle, sendRequestRecv, hk, Json.getKey,
            Json.getKeyD, hres, lookupKey]
  · intro kvs2 hres htools
    simp [listToolsHandle, sendRequestRecv, hk, Json.getKey, Json.getKeyD, hres, htools]

/-- Witness for C10: concrete Responses with the fields absent. -/
theorem empty_result_payload_defaults_witness :
    callToolHandle (.line "" (.ok (.obj []))) = .ok none ∧
    listToolsHandle (.line "" (.ok (.obj []))) = .ok (.arr []) ∧
    listToolsHandle (.line "" (.ok (.obj [("result", .obj [("x", .null)])]))) =
      .ok (.arr []) :=
  ⟨((empty_result_payload_defaults "" [] rfl).1 rfl).1,
   ((empty_result_payload_defaults "" [] rfl).1 rfl).2,
   (empty_result_payload_defaults "" [("result", .obj [("x", .null)])] rfl).2
     [("x", .null)] rfl rfl⟩

/-- Claim C9: for every tool name, argument mapping and upstream world, the
dispatcher returns exactly one content item, and it is a text item — on
success, on every domain-error path, and on the unknown-tool path. -/
theorem call_tool_single_text_item (name : String) (arguments : List (String × Json)) (env : Env) :
    (handle_call_tool name arguments env).1.length = 1 ∧
    (handle_call_tool name arguments env).1.all Content.isText = true := by
  have h : ∃ s, (handle_call_tool name arguments env).1 = [Content.text s] := by
    unfold handle_call_tool
    repeat' (first | split | dsimp only)
    all_goals exact ⟨_, rfl⟩
  obtain ⟨s, hs⟩ := h
  rw [hs]
  exact ⟨rfl, rfl⟩

/-! ### Round-trip of the framing layer (towards claim C8) -/


/-! ### Round-trip of the framing layer (towards claim C8) -/

theorem psb_quote (cs : List Char) : parseStrBody ('"' :: cs) = some ([], cs) := by
  rw [parseStrBody.eq_def]; simp

theorem psb_esc (e : Char) (d : Char) (tail : List Char)
    (h : (if e = '"' then some '"'
          else if e = '\\' then some '\\'
          else if e = 'n' then some '\n'
          else if e = 't' then some '\t'
          else if e = 'r' then some '\r'
          else if e = 'b' then some '\x08'
          else if e = 'f' then some '\x0c'
          else none) = some d) :
    parseStrBody ('\\' :: e :: tail) = (parseStrBody tail).map (fun p => (d :: p.1, p.2)) := by
  rw [parseStrBody.eq_def]; simp [h]

theorem psb_raw (c : Char) (cs : List Char) (h1 : c ≠ '"') (h2 : c ≠ '\\') :
    parseStrBody (c :: cs) = (parseStrBody cs).map (fun p => (c :: p.1, p.2)) := by
  rw [parseStrBody.eq_def]; simp [h1, h2]

theorem parseStrBody_escape : ∀ (cs : List Char) (rest : List Char),
    parseStrBody (escapeChars cs ++ '"' :: rest) = some (cs, rest) := by
  intro cs
  induction cs with
  | nil => intro rest; simpa [escapeChars] using psb_quote rest
  | cons c cs ih =>
    intro rest
    simp only [escapeChars, List.append_assoc]
    unfold escapeChar
    split_ifs with h1 h2 h3 h4 h5 h6 h7
    · subst h1; rw [List.cons_append, List.cons_append, List.nil_append,
        psb_esc '"' '"' _ (by simp), ih]; rfl
    · subst h2; rw [List.cons_append, List.cons_append, List.nil_append,
        psb_esc '\\' '\\' _ (by simp), ih]; rfl
    · subst h3; rw [List.cons_append, List.cons_append, List.nil_append,
        psb_esc 'n' '\n' _ (by simp), ih]; rfl
    · subst h4; rw [List.cons_append, List.cons_append, List.nil_append,
        psb_esc 't' '\t' _ (by simp), ih]; rfl
    · subst h5; rw [List.cons_append, List.cons_append, List.nil_append,
        psb_esc 'r' '\x0d' _ (by simp), ih]; rfl
    · subst h6; rw [List.cons_append, List.cons_append, List.nil_append,
        psb_esc 'b' '\x08' _ (by simp), ih]; rfl
    · subst h7; rw [List.cons_append, List.cons_append, List.nil_append,
        psb_esc 'f' '\x0c' _ (by simp), ih]; rfl
    · rw [List.cons_append, List.nil_append, psb_raw c _ h1 h2, ih]; rfl

theorem digitChar_isDigit (d : Nat) (h : d < 10) : (digitChar d).isDigit = true := by
  interval_cases d <;> decide

theorem digitVal_digitChar (d : Nat) (h : d < 10) : digitVal (digitChar d) = d := by
  interval_cases d <;> decide

theorem digit_ne (c : Char) (h : c.isDigit = true) (d : Char) (h2 : d.isDigit = false) :
    c ≠ d := by
  intro he; subst he; rw [h] at h2; exact Bool.noConfusion h2

theorem natChars_ne_nil (n : Nat) : natChars n ≠ [] := by
  unfold natChars
  split_ifs with h
  · simp
  · simp [Nat.digits_ne_nil_iff_ne_zero, h]

theorem natChars_all_digit (n : Nat) : ∀ c ∈ natChars n, c.isDigit = true := by
  intro c hc
  unfold natChars at hc
  split_ifs at hc with h
  · simp at hc; subst hc; decide
  · simp only [List.mem_reverse, List.mem_map] at hc
    obtain ⟨d, hd, rfl⟩ := hc
    exact digitChar_isDigit d (Nat.digits_lt_base (by norm_num) hd)

theorem foldl_natChars (n : Nat) :
    (natChars n).foldl (fun a c => 10 * a + digitVal c) 0 = n := by
  unfold natChars
  split_ifs with h
  · subst h; decide
  · rw [List.foldl_reverse, List.foldr_map]
    have key : ∀ ds : List Nat, (∀ d ∈ ds, d < 10) →
        ds.foldr (fun d a => 10 * a + digitVal (digitChar d)) 0 = Nat.ofDigits 10 ds := by
      intro ds
      induction ds with
      | nil => intro _; simp [Nat.ofDigits]
      | cons d ds ih =>
        intro hds
        simp only [List.foldr_cons, Nat.ofDigits_cons]
        rw [ih (fun x hx => hds x (List.mem_cons_of_mem d hx)),
            digitVal_digitChar d (hds d (List.mem_cons_self d ds))]
        omega
    rw [key _ (fun d hd => Nat.digits_lt_base (by norm_num) hd)]
    exact_mod_cast Nat.ofDigits_digits 10 n

theorem takeWhile_append_all (p : Char → Bool) (l rest : List Char)
    (h : ∀ c ∈ l, p c = true) :
    (l ++ rest).takeWhile p = l ++ rest.takeWhile p := by
  induction l with
  | nil => rfl
  | cons c cs ih =>
    simp only [List.cons_append, List.takeWhile_cons, h c (List.mem_cons_self c cs)]
    exact congrArg _ (ih (fun x hx => h x (List.mem_cons_of_mem c hx)))

theorem dropWhile_append_all (p : Char → Bool) (l rest : List Char)
    (h : ∀ c ∈ l, p c = true) :
    (l ++ rest).dropWhile p = rest.dropWhile p := by
  induction l with
  | nil => rfl
  | cons c cs ih =>
    simp only [List.cons_append, List.dropWhile_cons, h c (List.mem_cons_self c cs)]
    exact ih (fun x hx => h x (List.mem_cons_of_mem c hx))

theorem takeWhile_head_false (p : Char → Bool) (rest : List Char)
    (h : ∀ c, rest.head? = some c → p c = false) : rest.takeWhile p = [] := by
  cases rest with
  | nil => rfl
  | cons c cs => simp [List.takeWhile_cons, h c rfl]

theorem dropWhile_head_false (p : Char → Bool) (rest : List Char)
    (h : ∀ c, rest.head? = some c → p c = false) : rest.dropWhile p = rest := by
  cases rest with
  | nil => rfl
  | cons c cs => simp [List.dropWhile_cons, h c rfl]

theorem parseNatChars_natChars (n : Nat) (rest : List Char)
    (h : ∀ c, rest.head? = some c → c.isDigit = false) :
    parseNatChars (natChars n ++ rest) = some (n, rest) := by
  unfold parseNatChars
  simp only [takeWhile_append_all _ _ _ (natChars_all_digit n),
    takeWhile_head_false _ _ h, dropWhile_append_all _ _ _ (natChars_all_digit n),
    dropWhile_head_false _ _ h, List.append_nil]
  rw [if_neg (by simp [natChars_ne_nil n])]
  rw [foldl_natChars]

theorem parseIntChars_intChars (n : Int) (rest : List Char)
    (h : ∀ c, rest.head? = some c → c.isDigit = false) :
    parseIntChars (intChars n ++ rest) = some (n, rest) := by
  unfold intChars
  split_ifs with hn
  · rw [List.cons_append]
    simp only [parseIntChars, if_pos rfl]
    rw [parseNatChars_natChars _ _ h]
    have habs : -((n.natAbs : Int)) = n := by omega
    simp only [Option.map_some']
    rw [habs]
    simp
  · obtain ⟨c, t, hct⟩ := List.exists_cons_of_ne_nil (natChars_ne_nil n.natAbs)
    rw [hct, List.cons_append]
    simp only [parseIntChars]
    rw [if_neg (digit_ne c (natChars_all_digit _ c (hct ▸ List.mem_cons_self c t)) '-'
          (by decide)),
        ← List.cons_append, ← hct, parseNatChars_natChars _ _ h]
    have habs : ((n.natAbs : Int)) = n := by omega
    simp only [Option.map_some']
    rw [habs]

theorem intChars_head (n : Int) :
    ∃ c t, intChars n = c :: t ∧ (c = '-' ∨ c.isDigit = true) := by
  unfold intChars
  split_ifs with hn
  · exact ⟨'-', _, rfl, Or.inl rfl⟩
  · obtain ⟨c, t, hct⟩ := List.exists_cons_of_ne_nil (natChars_ne_nil n.natAbs)
    exact ⟨c, t, hct, Or.inr (natChars_all_digit _ c (hct ▸ List.mem_cons_self c t))⟩

theorem renderJson_head (j : Json) :
    ∃ c t, renderJson j = c :: t ∧ c ≠ ']' ∧ c ≠ '\x7d' := by
  cases j with
  | null => exact ⟨'n', _, rfl, by decide, by decide⟩
  | bool b => cases b with
    | true => exact ⟨'t', _, rfl, by decide, by decide⟩
    | false => exact ⟨'f', _, rfl, by decide, by decide⟩
  | num n =>
    obtain ⟨c, t, hct, hc⟩ := intChars_head n
    refine ⟨c, t, hct, ?_, ?_⟩ <;>
      rcases hc with rfl | hd
    · decide
    · exact digit_ne c hd ']' (by decide)
    · decide
    · exact digit_ne c hd '\x7d' (by decide)
  | str s => exact ⟨'"', _, rfl, by decide, by decide⟩
  | arr xs => cases xs with
    | nil => exact ⟨'[', _, rfl, by decide, by decide⟩
    | cons x xs => exact ⟨'[', _, rfl, by decide, by decide⟩
  | obj kvs =>
    rcases kvs with _ | ⟨⟨k, v⟩, kvs⟩
    · exact ⟨'\x7b', _, rfl, by decide, by decide⟩
    · exact ⟨'\x7b', _, rfl, by decide, by decide⟩

theorem arrTail_head_nodigit (xs : List Json) (rest : List Char) :
    ∀ c, (renderArrTail xs ++ ']' :: rest).head? = some c → c.isDigit = false := by
  cases xs with
  | nil =>
    intro c hc
    simp only [renderArrTail, List.nil_append, List.head?_cons, Option.some.injEq] at hc
    subst hc; decide
  | cons y ys =>
    intro c hc
    simp only [renderArrTail, List.cons_append, List.head?_cons, Option.some.injEq] at hc
    subst hc; decide

theorem objTail_head_nodigit (kvs : List (String × Json)) (rest : List Char) :
    ∀ c, (renderObjTail kvs ++ '\x7d' :: rest).head? = some c → c.isDigit = false := by
  rcases kvs with _ | ⟨⟨k, v⟩, kvs⟩
  · intro c hc
    simp only [renderObjTail, List.nil_append, List.head?_cons, Option.some.injEq] at hc
    subst hc; decide
  · intro c hc
    simp only [renderObjTail, List.cons_append, List.head?_cons, Option.some.injEq] at hc
    subst hc; decide

theorem pv_null (fuel : Nat) (rest : List Char) :
    parseVal (fuel+1) ('n' :: 'u' :: 'l' :: 'l' :: rest) = some (.null, rest) := rfl

theorem pv_true (fuel : Nat) (rest : List Char) :
    parseVal (fuel+1) ('t' :: 'r' :: 'u' :: 'e' :: rest) = some (.bool true, rest) := rfl

theorem pv_false (fuel : Nat) (rest : List Char) :
    parseVal (fuel+1) ('f' :: 'a' :: 'l' :: 's' :: 'e' :: rest) = some (.bool false, rest) := rfl

theorem pv_str (fuel : Nat) (cs : List Char) :
    parseVal (fuel+1) ('"' :: cs) =
      (parseStrBody cs).map (fun p => (Json.str ⟨p.1⟩, p.2)) := rfl

theorem pv_arr_nil (fuel : Nat) (rest : List Char) :
    parseVal (fuel+1) ('[' :: ']' :: rest) = some (.arr [], rest) := rfl

theorem pv_arr_cons (fuel : Nat) (c2 : Char) (cs2 : List Char) (h : c2 ≠ ']') :
    parseVal (fuel+1) ('[' :: c2 :: cs2) =
      (parseArrItems fuel (c2 :: cs2)).map (fun p => (Json.arr p.1, p.2)) := by
  simp [parseVal, h]

theorem pv_obj_nil (fuel : Nat) (rest : List Char) :
    parseVal (fuel+1) ('\x7b' :: '\x7d' :: rest) = some (.obj [], rest) := rfl

theorem pv_obj_cons (fuel : Nat) (c2 : Char) (cs2 : List Char) (h : c2 ≠ '\x7d') :
    parseVal (fuel+1) ('\x7b' :: c2 :: cs2) =
      (parseObjItems fuel (c2 :: cs2)).map (fun p => (Json.obj p.1, p.2)) := by
  simp [parseVal, h]

theorem pv_num (fuel : Nat) (c : Char) (cs : List Char)
    (hc : c = '-' ∨ c.isDigit = true) :
    parseVal (fuel+1) (c :: cs) =
      (parseIntChars (c :: cs)).map (fun p => (Json.num p.1, p.2)) := by
  have hne : ∀ d : Char, d.isDigit = false → d ≠ '-' → c ≠ d := by
    intro d hd hdm
    rcases hc with rfl | hdig
    · exact fun he => hdm he.symm
    · exact digit_ne c hdig d hd
  simp only [parseVal]
  rw [if_neg (hne 'n' (by decide) (by decide)), if_neg (hne 't' (by decide) (by decide)),
    if_neg (hne 'f' (by decide) (by decide)), if_neg (hne '"' (by decide) (by decide)),
    if_neg (hne '[' (by decide) (by decide)), if_neg (hne '\x7b' (by decide) (by decide))]

theorem parse_render_fuel : ∀ fuel : Nat,
    (∀ j rest, jsize j < fuel → (∀ c, rest.head? = some c → c.isDigit = false) →
       parseVal fuel (renderJson j ++ rest) = some (j, rest)) ∧
    (∀ x xs rest, jsizeArr (x :: xs) < fuel →
       parseArrItems fuel (renderJson x ++ (renderArrTail xs ++ (']' :: rest))) =
         some (x :: xs, rest)) ∧
    (∀ k v kvs rest, jsizeObj ((k, v) :: kvs) < fuel →
       parseObjItems fuel
           ('"' :: (escapeChars k.data ++ ('"' :: (':' :: (' ' :: (renderJson v ++
             (renderObjTail kvs ++ ('\x7d' :: rest)))))))) =
         some ((k, v) :: kvs, rest)) := by
  intro fuel
  induction fuel with
  | zero =>
    exact ⟨fun j rest h => absurd h (by omega),
           fun x xs rest h => absurd h (by omega),
           fun k v kvs rest h => absurd h (by omega)⟩
  | succ fuel ih =>
    obtain ⟨ihA, ihB, ihC⟩ := ih
    refine ⟨?_, ?_, ?_⟩
    · intro j rest hsz hrest
      cases j with
      | null => exact pv_null fuel rest
      | bool b =>
        cases b with
        | true => exact pv_true fuel rest
        | false => exact pv_false fuel rest
      | num n =>
        obtain ⟨c, t, hct, hc⟩ := intChars_head n
        have hr : renderJson (.num n) = intChars n := rfl
        rw [hr, hct, List.cons_append, pv_num fuel c _ hc, ← List.cons_append, ← hct,
            parseIntChars_intChars n rest hrest]
        rfl
      | str s =>
        have hr : renderJson (.str s) = '"' :: (escapeChars s.data ++ ['"']) := rfl
        rw [hr, List.cons_append, pv_str, List.append_assoc, List.singleton_append,
            parseStrBody_escape]
        rfl
      | arr xs =>
        cases xs with
        | nil => exact pv_arr_nil fuel rest
        | cons x xs =>
          obtain ⟨c2, t2, hct2, hne2, _⟩ := renderJson_head x
          have hr : renderJson (.arr (x :: xs)) =
              '[' :: ((renderJson x ++ renderArrTail xs) ++ [']']) := rfl
          have hsz' : jsizeArr (x :: xs) < fuel := by
            have he : jsize (.arr (x :: xs)) = 1 + jsizeArr (x :: xs) := rfl
            omega
          rw [hr, List.cons_append, List.append_assoc, List.append_assoc,
              List.singleton_append, hct2, List.cons_append,
              pv_arr_cons fuel c2 _ hne2, ← List.cons_append, ← hct2,
              ihB x xs rest hsz']
          rfl
      | obj kvs =>
        rcases kvs with _ | ⟨⟨k, v⟩, kvs⟩
        · exact pv_obj_nil fuel rest
        · have hsz' : jsizeObj ((k, v) :: kvs) < fuel := by
            have he : jsize (.obj ((k, v) :: kvs)) = 1 + jsizeObj ((k, v) :: kvs) := rfl
            omega
          have hshape : renderJson (.obj ((k, v) :: kvs)) ++ rest =
              '\x7b' :: ('"' :: (escapeChars k.data ++ ('"' :: (':' :: (' ' :: (renderJson v ++
                (renderObjTail kvs ++ ('\x7d' :: rest)))))))) := by
            rw [renderJson]
            simp [renderStringChars, List.cons_append, List.append_assoc,
              List.singleton_append]
          rw [hshape, pv_obj_cons fuel '"' _ (by decide), ihC k v kvs rest hsz']
          rfl
    · intro x xs rest hsz
      have hszx : jsize x < fuel := by
        have he : jsizeArr (x :: xs) = 1 + jsize x + jsizeArr xs := rfl
        omega
      have e1 := ihA x (renderArrTail xs ++ (']' :: rest)) hszx
        (arrTail_head_nodigit xs rest)
      simp only [parseArrItems, e1]
      cases xs with
      | nil => simp [renderArrTail]
      | cons y ys =>
        have hszy : jsizeArr (y :: ys) < fuel := by
          have he : jsizeArr (x :: y :: ys) = 1 + jsize x + jsizeArr (y :: ys) := rfl
          omega
        have e2 := ihB y ys rest hszy
        simp only [renderArrTail, List.cons_append, List.append_assoc]
        simp only [e2]
        rfl
    · intro k v kvs rest hsz
      have hszv : jsize v < fuel := by
        have he : jsizeObj ((k, v) :: kvs) = 1 + jsize v + jsizeObj kvs := rfl
        omega
      have e1 := ihA v (renderObjTail kvs ++ ('\x7d' :: rest)) hszv
        (objTail_head_nodigit kvs rest)
      simp only [parseObjItems, parseStrBody_escape, e1]
      rcases kvs with _ | ⟨⟨k2, v2⟩, kvs⟩
      · simp [renderObjTail]
      · have hszk2 : jsizeObj ((k2, v2) :: kvs) < fuel := by
          have he : jsizeObj ((k, v) :: (k2, v2) :: kvs) =
              1 + jsize v + jsizeObj ((k2, v2) :: kvs) := rfl
          omega
        have e2 := ihC k2 v2 kvs rest hszk2
        simp only [renderObjTail, renderStringChars, List.cons_append, List.append_assoc,
          List.singleton_append, List.nil_append]
        simp only [e2]
        rfl

theorem jsize_le_render : ∀ N : Nat,
    (∀ j, jsize j ≤ N → jsize j ≤ (renderJson j).length) ∧
    (∀ xs, jsizeArr xs ≤ N → jsizeArr xs ≤ (renderArrTail xs).length) ∧
    (∀ kvs, jsizeObj kvs ≤ N → jsizeObj kvs ≤ (renderObjTail kvs).length) := by
  intro N
  induction N using Nat.strong_induction_on with
  | _ N ih =>
    refine ⟨fun j hj => ?_, fun xs hxs => ?_, fun kvs hkvs => ?_⟩
    · cases j with
      | null => simp [jsize, renderJson]
      | bool b => cases b <;> simp [jsize, renderJson]
      | num n =>
        have h1 : (natChars n.natAbs).length ≥ 1 := by
          have := natChars_ne_nil n.natAbs
          cases hn : natChars n.natAbs with
          | nil => exact absurd hn this
          | cons c t => simp [hn]
        have he : jsize (Json.num n) = 1 := rfl
        rw [he]
        show 1 ≤ (intChars n).length
        unfold intChars
        split_ifs
        · simp only [List.length_cons]
          omega
        · omega
      | str s =>
        have he : jsize (Json.str s) = 1 := rfl
        rw [he]
        show 1 ≤ (renderStringChars s).length
        simp [renderStringChars]
      | arr xs =>
        cases xs with
        | nil => simp [jsize, jsizeArr, renderJson]
        | cons x xs =>
          have he : jsize (Json.arr (x :: xs)) = 1 + (1 + jsize x + jsizeArr xs) := rfl
          have hx : jsize x ≤ (renderJson x).length := by
            refine (ih (jsize x) ?_).1 x le_rfl
            omega
          have hxs : jsizeArr xs ≤ (renderArrTail xs).length := by
            refine (ih (jsizeArr xs) ?_).2.1 xs le_rfl
            omega
          have hr : renderJson (Json.arr (x :: xs)) =
              '[' :: ((renderJson x ++ renderArrTail xs) ++ [']']) := rfl
          rw [he, hr]
          simp only [List.length_cons, List.length_append, List.length_singleton]
          omega
      | obj kvs =>
        rcases kvs with _ | ⟨⟨k, v⟩, kvs⟩
        · simp [jsize, jsizeObj, renderJson]
        · have he : jsize (Json.obj ((k, v) :: kvs)) =
              1 + (1 + jsize v + jsizeObj kvs) := rfl
          have hv : jsize v ≤ (renderJson v).length := by
            refine (ih (jsize v) ?_).1 v le_rfl
            omega
          have hkvs2 : jsizeObj kvs ≤ (renderObjTail kvs).length := by
            refine (ih (jsizeObj kvs) ?_).2.2 kvs le_rfl
            omega
          have hshape : renderJson (Json.obj ((k, v) :: kvs)) ++ ([] : List Char) =
              '\x7b' :: ('"' :: (escapeChars k.data ++ ('"' :: (':' :: (' ' :: (renderJson v ++
                (renderObjTail kvs ++ ('\x7d' :: ([] : List Char))))))))) := by
            rw [renderJson]
            simp [renderStringChars, List.cons_append, List.append_assoc,
              List.singleton_append]
          have hlen := congrArg List.length hshape
          simp only [List.length_append, List.length_cons, List.length_nil] at hlen
          rw [he]
          omega
    · cases xs with
      | nil => simp [jsizeArr, renderArrTail]
      | cons x xs =>
        have he : jsizeArr (x :: xs) = 1 + jsize x + jsizeArr xs := rfl
        have hx : jsize x ≤ (renderJson x).length := by
          refine (ih (jsize x) ?_).1 x le_rfl
          omega
        have hxs2 : jsizeArr xs ≤ (renderArrTail xs).length := by
          refine (ih (jsizeArr xs) ?_).2.1 xs le_rfl
          omega
        have hr : renderArrTail (x :: xs) = ',' :: (' ' :: (renderJson x ++ renderArrTail xs)) := by
          rw [renderArrTail]
          simp [List.cons_append]
        rw [he, hr]
        simp only [List.length_cons, List.length_append]
        omega
    · rcases kvs with _ | ⟨⟨k, v⟩, kvs⟩
      · simp [jsizeObj, renderObjTail]
      · have he : jsizeObj ((k, v) :: kvs) = 1 + jsize v + jsizeObj kvs := rfl
        have hv : jsize v ≤ (renderJson v).length := by
          refine (ih (jsize v) ?_).1 v le_rfl
          omega
        have hkvs2 : jsizeObj kvs ≤ (renderObjTail kvs).length := by
          refine (ih (jsizeObj kvs) ?_).2.2 kvs le_rfl
          omega
        have hr : renderObjTail ((k, v) :: kvs) =
            ',' :: (' ' :: (renderStringChars k ++ ((':' :: (' ' :: renderJson v)) ++
              renderObjTail kvs))) := by
          rw [renderObjTail]
          simp [List.cons_append]
        rw [he, hr]
        simp only [List.length_cons, List.length_append]
        omega

theorem jsonLoads_jsonDumps (j : Json) : jsonLoads (jsonDumps j) = some j := by
  have hdata : (jsonDumps j).data = renderJson j := rfl
  have hfuel : jsize j < (renderJson j).length + 1 := by
    have := (jsize_le_render (jsize j)).1 j le_rfl
    omega
  have hA := (parse_render_fuel ((renderJson j).length + 1)).1 j [] hfuel
    (fun c hc => by simp at hc)
  rw [List.append_nil] at hA
  unfold jsonLoads
  rw [hdata, hA]

theorem pyStrip_dumps_newline (kvs : List (String × Json)) :
    pyStrip (jsonDumps (.obj kvs) ++ "\n") = jsonDumps (.obj kvs) := by
  have hdata : (jsonDumps (.obj kvs) ++ "\n").data = renderJson (.obj kvs) ++ ['\n'] := by
    rw [String.data_append]
    rfl
  obtain ⟨mid, hmid⟩ : ∃ mid, renderJson (.obj kvs) = '\x7b' :: (mid ++ ['\x7d']) := by
    rcases kvs with _ | ⟨⟨k, v⟩, kvs⟩
    · exact ⟨[], rfl⟩
    · refine ⟨renderStringChars k ++ ((':' :: (' ' :: renderJson v)) ++ renderObjTail kvs), ?_⟩
      rw [renderJson]
      simp [List.cons_append, List.append_assoc]
  have key : ∀ mid2 : List Char,
      (((('\x7b' :: (mid2 ++ ['\x7d'])) ++ ['\n']).dropWhile isPySpace).reverse.dropWhile
        isPySpace).reverse = '\x7b' :: (mid2 ++ ['\x7d']) := by
    intro mid2
    simp [isPySpace, List.dropWhile_cons, List.reverse_append, List.cons_append,
      List.append_assoc]
  have hrhs : jsonDumps (.obj kvs) = (⟨'\x7b' :: (mid ++ ['\x7d'])⟩ : String) := by
    rw [show jsonDumps (.obj kvs) = (⟨renderJson (.obj kvs)⟩ : String) from rfl, hmid]
  unfold pyStrip
  rw [hdata, hmid, hrhs]
  exact congrArg String.mk (key mid)

theorem fromJson_toJson (r : Request) : Request.fromJson (Request.toJson r) = some r := by
  rcases r with ⟨id, m, p⟩
  cases p <;> rfl

/-- Claim C8: encoding any Request to its newline-terminated JSON line and
decoding that line recovers a structurally identical Request — id, method
and params are all preserved. -/
theorem request_line_roundtrip (r : Request) :
    decodeRequestLine (encodeRequestLine r) = some r := by
  unfold encodeRequestLine decodeRequestLine
  obtain ⟨kvs, hkvs⟩ : ∃ kvs, r.toJson = Json.obj kvs := ⟨_, rfl⟩
  rw [hkvs, pyStrip_dumps_newline kvs, jsonLoads_jsonDumps, Option.some_bind, ← hkvs,
      fromJson_toJson]
